import Mathlib

/-
Verification of the wx_logs core (src/wx_logs/tow_calculator.py and
src/wx_logs/hourly_grid.py) against its natural-language specification.

Shallow embedding conventions:
- Python floats are modelled as exact rationals (ℚ); numpy mean/sum are the
  exact rational mean/sum.
- Python dicts are insertion-ordered association lists; assignment replaces an
  existing key in place and appends a fresh key at the end, like CPython dicts.
- A raised Python exception is an `Except.error`; since Python mutates objects
  in place, errors raised by mutating methods carry the state at raise time.
- datetime values handed to HourlyGrid are rational hours on a linear time
  axis (hour 0 = 1970-01-01 00:00); truncation to the hour is the floor, and
  timedelta(hours=1) is +1.  datetime values handed to TOWCalculator are
  records of the fields the calculator reads (year, month, day, hour).
-/

namespace WxLogs

set_option maxRecDepth 4000

/-- Python dict assignment `d[k] = v` on an association list: replaces the
value in place when the key is present, otherwise appends the pair at the
end (CPython dicts preserve insertion order). -/
def dictSet {α β : Type} [DecidableEq α] : List (α × β) → α → β → List (α × β)
  | [], k, v => [(k, v)]
  | (k0, v0) :: t, k, v =>
      if k0 = k then (k, v) :: t else (k0, v0) :: dictSet t k v

/-- Python `k in d` / `d[k]` read, as an association list lookup. -/
def dictGet {α β : Type} [DecidableEq α] : List (α × β) → α → Option β
  | [], _ => none
  | (k0, v0) :: t, k => if k0 = k then some v0 else dictGet t k

/-- Python `d[k] = f(d[k])` for a key known to be present: modify the entry in
place; an absent key is left untouched (Python would raise KeyError there,
but every call site below reads a key it has itself created). -/
def dictModify {α β : Type} [DecidableEq α] :
    List (α × β) → α → (β → β) → List (α × β)
  | [], _, _ => []
  | (k0, v0) :: t, k, f =>
      if k0 = k then (k0, f v0) :: t else (k0, v0) :: dictModify t k f

/-- np.mean of a list of readings, as an exact rational. -/
def np_mean (l : List ℚ) : ℚ := l.sum / (l.length : ℚ)

/-- Python's round-half-to-even of a rational to an integer. -/
def round_half_even (x : ℚ) : ℤ :=
  let n := ⌊x⌋
  let r := x - (n : ℚ)
  if r < 1/2 then n
  else if 1/2 < r then n + 1
  else if n % 2 = 0 then n else n + 1

/-- Python's `round(x, 2)`: exact round-half-to-even at two decimal digits
(readings are exact rationals here, so binary-float representation error is
out of scope of the embedding). -/
def pyround2 (x : ℚ) : ℚ := (round_half_even (100 * x) : ℚ) / 100

/- ===================== TOWCalculator (tow_calculator.py) ================= -/

/-- Sample lists of one hour slot: the `{'t': [], 'rh': []}` dict. -/
structure Slot where
  t : List ℚ
  rh : List ℚ
deriving DecidableEq, Repr

/-- Key of one slot inside a year: the (month, day, hour) tuple. -/
abbrev SlotKey := ℕ × ℕ × ℕ

/-- Per-year dict from (month, day, hour) to its samples (`self._data[year]`). -/
abbrev YearMap := List (SlotKey × Slot)

/-- TOWCalculator state: `self._data`, a dict from year to its slot map. -/
structure TOWCalculator where
  _data : List (ℤ × YearMap)
deriving DecidableEq, Repr

/-- Days in a month as computed inside TOWCalculator.create_empty_year.
February gets 29 days whenever `year % 4 == 0` — the code's leap test, which
(wrongly for century years such as 1900) ignores the 100/400 Gregorian rules. -/
def days_in_month (year : ℤ) (month : ℕ) : ℕ :=
  if month = 2 ∧ year % 4 = 0 then 29
  else if month = 2 then 28
  else if month = 4 ∨ month = 6 ∨ month = 9 ∨ month = 11 then 30
  else 31

/-- Slot skeleton built by TOWCalculator.create_empty_year for one year: the
nested month/day/hour loops write each (month, day, hour) key into the year's
dict.  The function is only invoked (from _validate_dt, guarded by a `not in`
test) when the year is absent, so the dict being filled starts empty and the
distinct keys land in loop order: the skeleton is this concatenation. -/
def create_empty_year_slots (year : ℤ) : YearMap :=
  (List.range' 1 12).flatMap fun month =>
    (List.range' 1 (days_in_month year month)).flatMap fun day =>
      (List.range 24).map fun hour => ((month, day, hour), Slot.mk [] [])

/-- TOWCalculator.create_empty_year: install the full skeleton for a year not
seen before; a year already present is left as is (the only caller guards the
call with the same `not in self._data` test). -/
def TOWCalculator.create_empty_year (s : TOWCalculator) (year : ℤ) : TOWCalculator :=
  if (dictGet s._data year).isSome then s
  else ⟨s._data ++ [(year, create_empty_year_slots year)]⟩

/-- Python datetime.datetime value, restricted to the fields the calculator
reads. -/
structure PyDatetime where
  year : ℤ
  month : ℕ
  day : ℕ
  hour : ℕ
deriving DecidableEq, Repr

/-- Dynamically typed `dt` argument of the add_* methods: either an actual
datetime or a value of some other Python type (carrying that type's name). -/
inductive DtArg where
  | dt (d : PyDatetime)
  | other (typeName : String)
deriving DecidableEq, Repr

/-- TOWCalculator._validate_dt: raises ValueError before touching _data when
the argument is not a datetime; otherwise makes sure the year skeleton exists
and returns the (year, month, day, hour) key. -/
def TOWCalculator._validate_dt (s : TOWCalculator) (a : DtArg) :
    Except (String × TOWCalculator) (TOWCalculator × (ℤ × ℕ × ℕ × ℕ)) :=
  match a with
  | .other typeName =>
      .error ("dt must be a datetime object, got " ++ typeName, s)
  | .dt d =>
      let s1 := if (dictGet s._data d.year).isSome then s else s.create_empty_year d.year
      .ok (s1, (d.year, d.month, d.day, d.hour))

/-- TOWCalculator.add_temperature: append the reading to the slot's 't' list.
The slot key exists for every valid calendar datetime, because the skeleton's
`% 4` February rule only ever over-approximates the real calendar. -/
def TOWCalculator.add_temperature (s : TOWCalculator) (temperature : ℚ) (a : DtArg) :
    Except (String × TOWCalculator) TOWCalculator :=
  match s._validate_dt a with
  | .error e => .error e
  | .ok (s1, (year, month, day, hour)) =>
      .ok ⟨dictModify s1._data year fun m =>
             dictModify m (month, day, hour) fun slot => ⟨slot.t ++ [temperature], slot.rh⟩⟩

/-- TOWCalculator.add_humidity: append the reading to the slot's 'rh' list. -/
def TOWCalculator.add_humidity (s : TOWCalculator) (rh : ℚ) (a : DtArg) :
    Except (String × TOWCalculator) TOWCalculator :=
  match s._validate_dt a with
  | .error e => .error e
  | .ok (s1, (year, month, day, hour)) =>
      .ok ⟨dictModify s1._data year fun m =>
             dictModify m (month, day, hour) fun slot => ⟨slot.t, slot.rh ++ [rh]⟩⟩

/-- Loop step of get_years over one slot: skip a slot missing either reading,
otherwise count it into total_hours and, when mean temperature > 0 and mean
humidity > 80, into tow_hours. -/
def tow_step (acc : ℕ × ℕ) (kv : SlotKey × Slot) : ℕ × ℕ :=
  if kv.2.t.length = 0 ∨ kv.2.rh.length = 0 then acc
  else (acc.1 + 1,
    if np_mean kv.2.t > 0 ∧ np_mean kv.2.rh > 80 then acc.2 + 1 else acc.2)

/-- Accumulation loop of get_years: (total_hours, tow_hours) over a year's
slots. -/
def tow_counts (m : YearMap) : ℕ × ℕ := m.foldl tow_step (0, 0)

/-- TOWCalculator.project_tow: extrapolate the wetness hours over the hours
that had data. -/
def TOWCalculator.project_tow (hours_with_data max_hours current_tow : ℕ) : ℚ :=
  pyround2 (((current_tow : ℚ) / (hours_with_data : ℚ)) * (max_hours : ℚ))

/-- Payload dict built by TOWCalculator.get_years for one year. -/
structure YearPayload where
  max_hours : ℕ
  total_hours : ℕ
  time_of_wetness : Option ℚ
  qa_state : String
  percent_valid : ℚ
deriving DecidableEq, Repr

/-- Body of TOWCalculator.get_years for one year.  max_hours is the number of
skeleton slots; percent_valid is the exact quotient total_hours / max_hours
(every reachable year map is a full skeleton, so the division is by a positive
count; Python would raise ZeroDivisionError on an empty map). -/
def year_payload (m : YearMap) : YearPayload :=
  let max_hours := m.length
  let c := tow_counts m
  let percent_valid : ℚ := (c.1 : ℚ) / (max_hours : ℚ)
  let qa_state : String := if percent_valid > 3/4 then "PASS" else "FAIL"
  let projected_tow : Option ℚ :=
    if qa_state = "PASS" then some (TOWCalculator.project_tow c.1 max_hours c.2)
    else none
  ⟨max_hours, c.1, projected_tow, qa_state, percent_valid⟩

/-- TOWCalculator.get_years: one payload per touched year. -/
def TOWCalculator.get_years (s : TOWCalculator) : List (ℤ × YearPayload) :=
  s._data.map fun p => (p.1, year_payload p.2)

/-- Gregorian leap year, following the specification's words: divisible by 4
and not by 100, or divisible by 400. -/
def gregorian_leap_year (y : ℤ) : Prop :=
  (y % 4 = 0 ∧ y % 100 ≠ 0) ∨ y % 400 = 0

instance (y : ℤ) : Decidable (gregorian_leap_year y) := by
  unfold gregorian_leap_year; infer_instance

/-- Modelled from the spec: `hours_in_year(y)` with the Gregorian rule — 8784
for a Gregorian leap year, 8760 otherwise (refinement target for the skeleton
size; the repository's create_empty_year is the code-side counterpart). -/
def spec_hours_in_year (y : ℤ) : ℕ :=
  if gregorian_leap_year y then 8784 else 8760

/-- Calculator state after add_temperature(10, datetime(1900, 1, 1, 0)) on a
fresh instance (the add succeeds, so the error arm is dead). -/
def calc_1900 : TOWCalculator :=
  match (TOWCalculator.mk []).add_temperature 10 (.dt ⟨1900, 1, 1, 0⟩) with
  | .ok s => s
  | .error e => e.2

/- ======================= HourlyGrid (hourly_grid.py) ===================== -/

/-- HourlyGrid state.  `hours` is the dict keyed by the truncated hour value
(an integer hour index); a stored value is itself nullable.  Field names
follow the source (`end` is a Lean keyword, hence `_end_`). -/
structure HourlyGrid where
  hours : List (ℤ × Option ℚ)
  _start : Option ℤ
  _end_ : Option ℤ
  _default_value : Option ℚ
  _is_empty : Bool
deriving DecidableEq, Repr

/-- HourlyGrid.__init__(default_value). -/
def HourlyGrid.init (default_value : Option ℚ) : HourlyGrid :=
  ⟨[], none, none, default_value, true⟩

/-- Truncation of a timestamp to the hour: dt.replace(minute=0, second=0,
microsecond=0) on the rational time axis is the floor, an integer hour. -/
def trunc_hour (dt : ℚ) : ℤ := ⌊dt⌋

/-- Densification walk shared by HourlyGrid._recalc and _recalc_bottom: from
hour `s`, walk `n` hours forward and give every hour missing from the dict the
default value (one loop tests `not in`, the other try/except KeyError — the
effect is identical); a fresh dict entry is appended in insertion order. -/
def fill_missing (default : Option ℚ) :
    List (ℤ × Option ℚ) → ℤ → ℕ → List (ℤ × Option ℚ)
  | hours, _, 0 => hours
  | hours, s, n + 1 =>
      fill_missing default
        (if (dictGet hours s).isSome then hours else hours ++ [(s, default)])
        (s + 1) n

/-- HourlyGrid._recalc: `while start_dt < end_dt` fills the missing hours of
[_start, _end); only ever invoked with both bounds set (Python would fail on
None bounds, modelled by the irrelevant default 0). -/
def HourlyGrid._recalc (g : HourlyGrid) : HourlyGrid :=
  let s := g._start.getD 0
  let e := g._end_.getD 0
  { g with hours := fill_missing g._default_value g.hours s (e - s).toNat }

/-- HourlyGrid._recalc_bottom(old_end): fills the missing hours of
[old_end, _end). -/
def HourlyGrid._recalc_bottom (g : HourlyGrid) (old_end : ℤ) : HourlyGrid :=
  let e := g._end_.getD 0
  { g with hours := fill_missing g._default_value g.hours old_end (e - old_end).toNat }

/-- HourlyGrid._update_range: the sequential flag logic of the source, with
each flag written out.  The start branch may set `recalc`; the end branch
either sets `recalc` (end was None) or remembers old_end and sets
`recalc_bottom` (dt extends past the end); then the recalculations run. -/
def HourlyGrid._update_range (g : HourlyGrid) (dt : ℚ) : HourlyGrid :=
  let hour := trunc_hour dt
  let new_start : ℤ :=
    match g._start with
    | none => hour
    | some s => if dt < (s : ℚ) then hour else s
  let recalc_from_start : Bool :=
    match g._start with
    | none => true
    | some s => decide (dt < (s : ℚ))
  let new_end : ℤ :=
    match g._end_ with
    | none => hour
    | some e => if dt > (e : ℚ) then hour else e
  let recalc_from_end : Bool := g._end_.isNone
  let old_end : Option ℤ :=
    match g._end_ with
    | none => none
    | some e => if dt > (e : ℚ) then some e else none
  let g1 := { g with _start := some new_start, _end_ := some new_end }
  let g2 := if recalc_from_start || recalc_from_end then g1._recalc else g1
  match old_end with
  | some e => g2._recalc_bottom e
  | none => g2

/-- HourlyGrid.add: truncate to the hour, update the range (densifying), then
overwrite the hour's value; a non-null value clears the all-null flag. -/
def HourlyGrid.add (g : HourlyGrid) (dt : ℚ) (value : Option ℚ) : HourlyGrid :=
  let hour := trunc_hour dt
  let g1 := g._update_range dt
  let g2 := { g1 with hours := dictSet g1.hours hour value }
  if value.isSome then { g2 with _is_empty := false } else g2

/-- Fold a list of (dt, value) insertions into a fresh grid. -/
def add_all (default : Option ℚ) (ops : List (ℚ × Option ℚ)) : HourlyGrid :=
  ops.foldl (fun g p => g.add p.1 p.2) (HourlyGrid.init default)

/-- Density invariant of the spec: both bounds are set, and the hour dict has
a key exactly at every hour of [start, end] — no implicit holes inside, no
keys outside. -/
def grid_dense (g : HourlyGrid) : Prop :=
  ∃ a b, g._start = some a ∧ g._end_ = some b ∧ a ≤ b ∧
    ∀ h : ℤ, (dictGet g.hours h).isSome ↔ (a ≤ h ∧ h ≤ b)

/-- Hour cells of the queried slice: the whole dict when no range is given,
else the cells whose hour lies within [start, end] inclusive. -/
def slice_cells (g : HourlyGrid) (range? : Option (ℤ × ℤ)) : List (Option ℚ) :=
  match range? with
  | none => g.hours.map fun kv => kv.2
  | some (s, e) =>
      (g.hours.filter fun kv => decide (s ≤ kv.1) && decide (kv.1 ≤ e)).map fun kv => kv.2

/-- Python min of a nonempty list (none on the empty list, which the source
guards against). -/
def list_min : List ℚ → Option ℚ
  | [] => none
  | x :: t => some (t.foldl min x)

/-- Python max of a nonempty list. -/
def list_max : List ℚ → Option ℚ
  | [] => none
  | x :: t => some (t.foldl max x)

/-- HourlyGrid.get_total: sum of the non-null values of the slice (np.sum of
an empty list is 0, so no length guard exists here). -/
def HourlyGrid.get_total (g : HourlyGrid) (range? : Option (ℤ × ℤ)) : Option ℚ :=
  if g._is_empty then none
  else if g.hours.length = 0 then none
  else
    let hour_values : List ℚ :=
      match range? with
      | none => g.hours.filterMap fun kv => kv.2
      | some (s, e) =>
          (g.hours.filter fun kv => decide (s ≤ kv.1) && decide (kv.1 ≤ e)).filterMap
            fun kv => kv.2
    some hour_values.sum

/-- HourlyGrid.get_mean: the nan/nulls are converted to 0 and kept in the
candidate list, so the mean divides by the number of all sliced hours. -/
def HourlyGrid.get_mean (g : HourlyGrid) (range? : Option (ℤ × ℤ)) : Option ℚ :=
  if g._is_empty then none
  else if g.hours.length = 0 then none
  else
    let hour_values : List ℚ :=
      match range? with
      | none => g.hours.map fun kv => kv.2.getD 0
      | some (s, e) =>
          (g.hours.filter fun kv => decide (s ≤ kv.1) && decide (kv.1 ≤ e)).map
            fun kv => kv.2.getD 0
    if hour_values.length = 0 then none
    else some (hour_values.sum / (hour_values.length : ℚ))

/-- HourlyGrid.get_min: like get_mean it substitutes 0 for null hours, then
takes the minimum of the substituted list. -/
def HourlyGrid.get_min (g : HourlyGrid) (range? : Option (ℤ × ℤ)) : Option ℚ :=
  if g._is_empty then none
  else if g.hours.length = 0 then none
  else
    let hour_values : List ℚ :=
      match range? with
      | none => g.hours.map fun kv => kv.2.getD 0
      | some (s, e) =>
          (g.hours.filter fun kv => decide (s ≤ kv.1) && decide (kv.1 ≤ e)).map
            fun kv => kv.2.getD 0
    if hour_values.length = 0 then none
    else list_min hour_values

/-- HourlyGrid.get_max: unlike get_min, the null hours are filtered out and
the maximum ranges over the non-null values only. -/
def HourlyGrid.get_max (g : HourlyGrid) (range? : Option (ℤ × ℤ)) : Option ℚ :=
  if g._is_empty then none
  else if g.hours.length = 0 then none
  else
    let hour_values : List ℚ :=
      match range? with
      | none => g.hours.filterMap fun kv => kv.2
      | some (s, e) =>
          (g.hours.filter fun kv => decide (s ≤ kv.1) && decide (kv.1 ≤ e)).filterMap
            fun kv => kv.2
    if hour_values.length = 0 then none
    else list_max hour_values

/-- Calendar year of an integer hour index (`hour.year` on the dict key):
exact days-to-civil conversion on the proleptic Gregorian calendar used by
Python's datetime, with hour 0 at 1970-01-01 00:00. -/
def year_of_hour (h : ℤ) : ℤ :=
  let z := h.ediv 24 + 719468
  let era := z.ediv 146097
  let doe := (z.emod 146097).toNat
  let yoe := (doe - doe / 1460 + doe / 36524 - doe / 146096) / 365
  let doy := doe - (365 * yoe + yoe / 4 - yoe / 100)
  let mp := (5 * doy + 2) / 153
  let m := if mp < 10 then mp + 3 else mp - 9
  if m ≤ 2 then era * 400 + yoe + 1 else era * 400 + yoe

/-- Loop body of HourlyGrid.get_total_by_year over the dict items: the year
key is created with total 0 on first sight, then `years[year] += value`
raises TypeError when the stored value is None (int/float plus NoneType). -/
def get_total_by_year_go :
    List (ℤ × Option ℚ) → List (ℤ × ℚ) → Except String (List (ℤ × ℚ))
  | [], years => .ok years
  | (hour, value) :: rest, years =>
      let year := year_of_hour hour
      let years1 := if (dictGet years year).isSome then years else years ++ [(year, 0)]
      match value with
      | none => .error "TypeError: unsupported operand types for +=: int and NoneType"
      | some v => get_total_by_year_go rest (dictModify years1 year fun t => t + v)

/-- HourlyGrid.get_total_by_year. -/
def HourlyGrid.get_total_by_year (g : HourlyGrid) : Except String (List (ℤ × ℚ)) :=
  get_total_by_year_go g.hours []

/-- Grid of §8.9 of the spec: entries 0 → 0, hour 1 → None, hour 2 → 5
(the scenario of the repository test test_handling_of_none_and_zero). -/
def example_grid_230 : HourlyGrid :=
  (((HourlyGrid.init none).add 0 (some 0)).add 1 none).add 2 (some 5)

/-- One-slot year whose single slot has both readings (pv = 1, PASS). -/
def filled_slot : Slot := ⟨[10], [90]⟩

/-- One-slot year map whose slot carries both samples. -/
def pass_slot_map : YearMap := [((1, 1, 0), filled_slot)]

/-- One-slot year map with no samples at all (pv = 0, FAIL). -/
def fail_slot_map : YearMap := [((1, 1, 0), Slot.mk [] [])]

/-- Calculator holding the passing one-slot year 2019. -/
def calc_pass : TOWCalculator := ⟨[(2019, pass_slot_map)]⟩

/-- Calculator holding the failing one-slot year 2019. -/
def calc_fail : TOWCalculator := ⟨[(2019, fail_slot_map)]⟩

/-- Year 2019 with exactly 6570 of its 8760 slots carrying both readings:
percent_valid is exactly 0.75. -/
def cex_year_075 : YearMap :=
  ((create_empty_year_slots 2019).take 6570).map (fun kv => (kv.1, filled_slot)) ++
  (create_empty_year_slots 2019).drop 6570

/-- Boolean form of "the slot has at least one temperature and one humidity
sample". -/
def slot_has_both (kv : SlotKey × Slot) : Bool :=
  decide (kv.2.t ≠ [] ∧ kv.2.rh ≠ [])

/-- Boolean form of "the slot has both samples, its mean temperature exceeds
0 and its mean humidity exceeds 80". -/
def slot_is_wet (kv : SlotKey × Slot) : Bool :=
  decide (kv.2.t ≠ [] ∧ kv.2.rh ≠ [] ∧ np_mean kv.2.t > 0 ∧ np_mean kv.2.rh > 80)

/- ============================ helper lemmas ============================== -/

lemma dictGet_append_single {α β : Type} [DecidableEq α]
    (l : List (α × β)) (k k2 : α) (v : β) :
    (dictGet (l ++ [(k, v)]) k2).isSome ↔ ((dictGet l k2).isSome ∨ k2 = k) := by
  induction l with
  | nil =>
    rw [List.nil_append]
    by_cases h : k = k2
    · subst h; simp [dictGet]
    · simp [dictGet, h, Ne.symm h]
  | cons h t ih =>
    obtain ⟨k0, v0⟩ := h
    by_cases hk : k0 = k2
    · simp [dictGet, hk]
    · simpa [dictGet, hk] using ih

lemma dictGet_dictSet {α β : Type} [DecidableEq α]
    (l : List (α × β)) (k k2 : α) (v : β) :
    (dictGet (dictSet l k v) k2).isSome ↔ ((dictGet l k2).isSome ∨ k2 = k) := by
  induction l with
  | nil =>
    by_cases h : k = k2
    · subst h; simp [dictSet, dictGet]
    · simp [dictSet, dictGet, h, Ne.symm h]
  | cons h t ih =>
    obtain ⟨k0, v0⟩ := h
    by_cases hk : k0 = k
    · subst hk
      by_cases hk2 : k0 = k2
      · subst hk2; simp [dictSet, dictGet]
      · simp [dictSet, dictGet, hk2, Ne.symm hk2]
    · by_cases hk2 : k0 = k2
      · subst hk2; simp [dictSet, dictGet, hk]
      · simpa [dictSet, dictGet, hk, hk2] using ih

lemma dictModify_length {α β : Type} [DecidableEq α]
    (l : List (α × β)) (k : α) (f : β → β) :
    (dictModify l k f).length = l.length := by
  induction l with
  | nil => rfl
  | cons h t ih =>
    obtain ⟨k0, v0⟩ := h
    by_cases hk : k0 = k
    · simp [dictModify, hk]
    · simp [dictModify, hk, ih]

lemma dictGet_fill_missing (default : Option ℚ) (hours : List (ℤ × Option ℚ))
    (s : ℤ) (n : ℕ) (k : ℤ) :
    (dictGet (fill_missing default hours s n) k).isSome ↔
      ((dictGet hours k).isSome ∨ (s ≤ k ∧ k < s + n)) := by
  induction n generalizing hours s with
  | zero =>
    have : ¬(s ≤ k ∧ k < s + (0 : ℕ)) := by omega
    simp [fill_missing, this]
  | succ n ih =>
    rw [fill_missing, ih]
    by_cases hs : (dictGet hours s).isSome
    · rw [if_pos hs]
      constructor
      · rintro (h | h)
        · exact Or.inl h
        · exact Or.inr (by omega)
      · rintro (h | h)
        · exact Or.inl h
        · by_cases hk : k = s
          · exact Or.inl (hk ▸ hs)
          · exact Or.inr (by omega)
    · rw [if_neg hs, dictGet_append_single]
      constructor
      · rintro ((h | h) | h)
        · exact Or.inl h
        · exact Or.inr (by omega)
        · exact Or.inr (by omega)
      · rintro (h | h)
        · exact Or.inl (Or.inl h)
        · by_cases hk : k = s
          · exact Or.inl (Or.inr hk)
          · exact Or.inr (by omega)

/-- Projection lemmas for year_payload (pure reformulations of the lets). -/
lemma year_payload_max_hours (m : YearMap) : (year_payload m).max_hours = m.length := rfl

lemma year_payload_total_hours (m : YearMap) :
    (year_payload m).total_hours = (tow_counts m).1 := rfl

lemma year_payload_percent_valid (m : YearMap) :
    (year_payload m).percent_valid = ((tow_counts m).1 : ℚ) / (m.length : ℚ) := rfl

lemma year_payload_qa_state (m : YearMap) :
    (year_payload m).qa_state =
      (if ((tow_counts m).1 : ℚ) / (m.length : ℚ) > 3/4 then "PASS" else "FAIL") := rfl

lemma year_payload_tow (m : YearMap) :
    (year_payload m).time_of_wetness =
      (if (year_payload m).qa_state = "PASS"
       then some (TOWCalculator.project_tow (tow_counts m).1 m.length (tow_counts m).2)
       else none) := rfl

lemma tow_foldl_eq (m : YearMap) (a b : ℕ) :
    m.foldl tow_step (a, b) =
      (a + m.countP slot_has_both, b + m.countP slot_is_wet) := by
  induction m generalizing a b with
  | nil => simp
  | cons kv t ih =>
    rw [List.foldl_cons, List.countP_cons, List.countP_cons]
    by_cases h1 : kv.2.t.length = 0 ∨ kv.2.rh.length = 0
    · have hb : slot_has_both kv = false := by
        simp only [slot_has_both, decide_eq_false_iff_not]
        rcases h1 with h | h <;>
          simp [List.length_eq_zero.mp h]
      have hw : slot_is_wet kv = false := by
        simp only [slot_is_wet, decide_eq_false_iff_not]
        rcases h1 with h | h <;>
          simp [List.length_eq_zero.mp h]
      rw [show tow_step (a, b) kv = (a, b) from if_pos h1, ih, hb, hw]
      simp
    · have hb : slot_has_both kv = true := by
        push_neg at h1
        simp only [slot_has_both, decide_eq_true_eq, ← List.length_pos_iff_ne_nil]
        omega
      push_neg at h1
      by_cases h2 : np_mean kv.2.t > 0 ∧ np_mean kv.2.rh > 80
      · have hw : slot_is_wet kv = true := by
          simp only [slot_is_wet, decide_eq_true_eq, ← List.length_pos_iff_ne_nil]
          refine ⟨by omega, by omega, h2.1, h2.2⟩
        have hstep : tow_step (a, b) kv = (a + 1, b + 1) := by
          rw [tow_step, if_neg (by omega), if_pos h2]
        rw [hstep, ih, hb, hw]
        simp [Prod.ext_iff]
        omega
      · have hw : slot_is_wet kv = false := by
          simp only [slot_is_wet, decide_eq_false_iff_not]
          intro hcon
          exact h2 ⟨hcon.2.2.1, hcon.2.2.2⟩
        have hstep : tow_step (a, b) kv = (a + 1, b) := by
          rw [tow_step, if_neg (by omega), if_neg h2]
        rw [hstep, ih, hb, hw]
        simp [Prod.ext_iff]
        omega

lemma tow_counts_eq (m : YearMap) :
    tow_counts m = (m.countP slot_has_both, m.countP slot_is_wet) := by
  simpa using tow_foldl_eq m 0 0

/-- Every slot of a freshly built year skeleton has empty sample lists. -/
lemma create_empty_year_slots_empty (y : ℤ) :
    ∀ kv ∈ create_empty_year_slots y, kv.2 = Slot.mk [] [] := by
  intro kv hkv
  simp only [create_empty_year_slots, List.mem_flatMap, List.mem_map] at hkv
  obtain ⟨month, _, day, _, hour, _, rfl⟩ := hkv
  rfl

/-- Number of slots the code builds for 1900: 1900 % 4 == 0, so the skeleton
gets a 29-day February, 8784 slots. -/
lemma create_empty_year_slots_1900_length :
    (create_empty_year_slots 1900).length = 8784 := by
  simp [create_empty_year_slots, days_in_month, Function.comp]
  decide

/-- Number of slots for the ordinary year 2019. -/
lemma create_empty_year_slots_2019_length :
    (create_empty_year_slots 2019).length = 8760 := by
  simp [create_empty_year_slots, days_in_month, Function.comp]
  decide

lemma tow_counts_fail_slot_map : tow_counts fail_slot_map = (0, 0) := by
  rw [tow_counts_eq]
  simp [fail_slot_map, slot_has_both, slot_is_wet]

lemma tow_counts_pass_slot_map : tow_counts pass_slot_map = (1, 1) := by
  rw [tow_counts_eq]
  norm_num [pass_slot_map, slot_has_both, slot_is_wet, filled_slot, np_mean]

lemma qa_fail_slot_map : (year_payload fail_slot_map).qa_state = "FAIL" := by
  have h : ¬(((tow_counts fail_slot_map).1 : ℚ) / ((fail_slot_map.length : ℚ)) > 3/4) := by
    rw [tow_counts_fail_slot_map]
    norm_num [fail_slot_map]
  rw [year_payload_qa_state, if_neg h]

lemma qa_pass_slot_map : (year_payload pass_slot_map).qa_state = "PASS" := by
  have h : ((tow_counts pass_slot_map).1 : ℚ) / ((pass_slot_map.length : ℚ)) > 3/4 := by
    rw [tow_counts_pass_slot_map]
    norm_num [pass_slot_map]
  rw [year_payload_qa_state, if_pos h]

/- ======================= claims about TOWCalculator ====================== -/

/-- C1 (code_bug evidence): touching year 1900 builds a skeleton of 8784 hour
slots — `1900 % 4 == 0` is treated as leap — and get_years consequently
reports max_hours = 8784, although 1900 is not a Gregorian leap year and the
spec's hours_in_year gives 8760.  (Python's own datetime rejects Feb 29 1900,
so the 24 extra slots can never receive data.) -/
theorem C1_century_year_slot_count :
    (create_empty_year_slots 1900).length = 8784 ∧
    (dictGet calc_1900.get_years 1900).map (fun p => p.max_hours) = some 8784 ∧
    ¬ gregorian_leap_year 1900 ∧ spec_hours_in_year 1900 = 8760 := by
  have hcalc : calc_1900 = ⟨[(1900, dictModify (create_empty_year_slots 1900)
      ((1 : ℕ), (1 : ℕ), (0 : ℕ)) (fun slot => ⟨slot.t ++ [10], slot.rh⟩))]⟩ := rfl
  refine ⟨create_empty_year_slots_1900_length, ?_, by decide, by decide⟩
  rw [hcalc]
  simp [TOWCalculator.get_years, dictGet]
  rw [year_payload_max_hours, dictModify_length, create_empty_year_slots_1900_length]

/-- C3 (counterexample): a year 2019 with exactly 6570 of its 8760 slots
carrying both readings has percent_valid exactly 0.75, yet its qa_state is
FAIL — the claim's "greater than or equal" is refuted at the boundary. -/
theorem C3_counterexample_exact_threshold :
    (year_payload cex_year_075).percent_valid = 3/4 ∧
    (year_payload cex_year_075).qa_state = "FAIL" := by
  have hlen : cex_year_075.length = 8760 := by
    unfold cex_year_075
    rw [List.length_append, List.length_map, List.length_take, List.length_drop,
        create_empty_year_slots_2019_length]
    omega
  have h1 : (((create_empty_year_slots 2019).take 6570).map
      (fun kv => (kv.1, filled_slot))).countP slot_has_both = 6570 := by
    have hall : ∀ kv ∈ ((create_empty_year_slots 2019).take 6570).map
        (fun kv => (kv.1, filled_slot)), slot_has_both kv = true := by
      intro kv hkv
      obtain ⟨kv0, _, rfl⟩ := List.mem_map.mp hkv
      simp [slot_has_both, filled_slot]
    rw [List.countP_eq_length.mpr hall, List.length_map, List.length_take,
        create_empty_year_slots_2019_length]
    omega
  have h2 : ((create_empty_year_slots 2019).drop 6570).countP slot_has_both = 0 := by
    rw [List.countP_eq_zero]
    intro kv hkv
    have hkv2 := create_empty_year_slots_empty 2019 kv (List.mem_of_mem_drop hkv)
    simp [slot_has_both, hkv2]
  have hboth : cex_year_075.countP slot_has_both = 6570 := by
    unfold cex_year_075
    rw [List.countP_append, h1, h2]
  have hfst : (tow_counts cex_year_075).1 = 6570 := by
    rw [tow_counts_eq, hboth]
  constructor
  · rw [year_payload_percent_valid, hfst, hlen]
    norm_num
  · have hcond : ¬(((tow_counts cex_year_075).1 : ℚ) / ((cex_year_075.length : ℚ)) > 3/4) := by
      rw [hfst, hlen]
      norm_num
    rw [year_payload_qa_state, if_neg hcond]

/-- C3 (amended): every touched year appears in get_years, and its qa_state is
PASS if and only if percent_valid is STRICTLY greater than 0.75 (the code
tests `percent_valid > 0.75`, so exactly 75% fails). -/
theorem C3_qa_threshold_strict (s : TOWCalculator) (year : ℤ) (m : YearMap)
    (hmem : (year, m) ∈ s._data) (hne : m ≠ []) :
    (year, year_payload m) ∈ s.get_years ∧
    ((year_payload m).qa_state = "PASS" ↔ (year_payload m).percent_valid > 3/4) := by
  have _ := hne
  refine ⟨by unfold TOWCalculator.get_years; exact List.mem_map_of_mem _ hmem, ?_⟩
  rw [year_payload_qa_state, year_payload_percent_valid]
  by_cases h : ((tow_counts m).1 : ℚ) / (m.length : ℚ) > 3/4
  · rw [if_pos h]
    exact ⟨fun _ => h, fun _ => rfl⟩
  · rw [if_neg h]
    constructor
    · intro hcon; exact absurd hcon (by decide)
    · intro hcon; exact absurd hcon h

/-- Witness for C3_qa_threshold_strict at the one-slot passing year. -/
theorem C3_qa_threshold_strict_applied :
    (2019, year_payload pass_slot_map) ∈ calc_pass.get_years ∧
    ((year_payload pass_slot_map).qa_state = "PASS" ↔
      (year_payload pass_slot_map).percent_valid > 3/4) :=
  C3_qa_threshold_strict calc_pass 2019 pass_slot_map
    (List.mem_singleton.mpr rfl) (List.cons_ne_nil _ _)

/-- C4: a year whose payload carries qa_state = FAIL always carries
time_of_wetness = none (the projection is computed on the PASS branch only). -/
theorem C4_fail_projection_null (s : TOWCalculator) (year : ℤ) (p : YearPayload)
    (hp : (year, p) ∈ s.get_years) (hfail : p.qa_state = "FAIL") :
    p.time_of_wetness = none := by
  unfold TOWCalculator.get_years at hp
  obtain ⟨⟨y, m⟩, hmem, heq⟩ := List.mem_map.mp hp
  obtain ⟨hy, hpay⟩ := Prod.ext_iff.mp heq
  subst hpay
  have hne : (year_payload m).qa_state ≠ "PASS" := by
    rw [hfail]; decide
  rw [year_payload_tow, if_neg hne]

/-- Witness for C4_fail_projection_null at the one-slot failing year. -/
theorem C4_fail_projection_null_applied :
    (year_payload fail_slot_map).time_of_wetness = none :=
  C4_fail_projection_null calc_fail 2019 (year_payload fail_slot_map)
    (List.mem_singleton.mpr rfl) qa_fail_slot_map

/-- C5: a year whose payload carries qa_state = PASS has at least one hour
with data, and its time_of_wetness is exactly
round(tow_hours / total_hours * max_hours, 2). -/
theorem C5_pass_projection_formula (s : TOWCalculator) (year : ℤ) (m : YearMap)
    (hmem : (year, m) ∈ s._data)
    (hpass : (year_payload m).qa_state = "PASS") :
    (year, year_payload m) ∈ s.get_years ∧
    1 ≤ (year_payload m).total_hours ∧
    (year_payload m).time_of_wetness =
      some (pyround2 ((((tow_counts m).2 : ℚ) /
        (((year_payload m).total_hours : ℚ))) *
        (((year_payload m).max_hours : ℚ)))) := by
  have hc : ((tow_counts m).1 : ℚ) / (m.length : ℚ) > 3/4 := by
    by_contra hc
    rw [year_payload_qa_state, if_neg hc] at hpass
    exact absurd hpass (by decide)
  refine ⟨by unfold TOWCalculator.get_years; exact List.mem_map_of_mem _ hmem, ?_, ?_⟩
  · rw [year_payload_total_hours]
    rcases Nat.eq_zero_or_pos (tow_counts m).1 with h0 | h1
    · rw [h0] at hc; norm_num at hc
    · exact h1
  · rw [year_payload_tow, if_pos hpass]
    rfl

/-- Witness for C5_pass_projection_formula at the one-slot passing year. -/
theorem C5_pass_projection_formula_applied :
    (2019, year_payload pass_slot_map) ∈ calc_pass.get_years ∧
    1 ≤ (year_payload pass_slot_map).total_hours ∧
    (year_payload pass_slot_map).time_of_wetness =
      some (pyround2 ((((tow_counts pass_slot_map).2 : ℚ) /
        (((year_payload pass_slot_map).total_hours : ℚ))) *
        (((year_payload pass_slot_map).max_hours : ℚ)))) :=
  C5_pass_projection_formula calc_pass 2019 pass_slot_map
    (List.mem_singleton.mpr rfl) qa_pass_slot_map

/-- C6: total_hours counts exactly the slots with at least one temperature
and at least one humidity sample, and the wetness-hour count counts exactly
those among them whose mean temperature exceeds 0 and whose mean humidity
exceeds 80. -/
theorem C6_counts_characterization (m : YearMap) :
    (year_payload m).total_hours = m.countP slot_has_both ∧
    (tow_counts m).2 = m.countP slot_is_wet := by
  have h := tow_counts_eq m
  exact ⟨by rw [year_payload_total_hours, h], by rw [h]⟩

/-- C9: a non-datetime dt argument makes both add methods raise immediately;
the error carries the state unchanged — no year skeleton is created and no
sample is stored. -/
theorem C9_add_rejects_non_datetime (s : TOWCalculator) (v : ℚ) (typeName : String) :
    s.add_temperature v (.other typeName) =
      .error ("dt must be a datetime object, got " ++ typeName, s) ∧
    s.add_humidity v (.other typeName) =
      .error ("dt must be a datetime object, got " ++ typeName, s) :=
  ⟨rfl, rfl⟩

/- ===================== lemmas about HourlyGrid =========================== -/

lemma foldl_min_le_init (l : List ℚ) (x : ℚ) : l.foldl min x ≤ x := by
  induction l generalizing x with
  | nil => exact le_refl x
  | cons a t ih => exact le_trans (ih (min x a)) (min_le_left x a)

lemma foldl_min_le_mem (l : List ℚ) (x y : ℚ) (hy : y ∈ l) : l.foldl min x ≤ y := by
  induction l generalizing x with
  | nil => cases hy
  | cons a t ih =>
    rcases List.mem_cons.mp hy with rfl | hy2
    · exact le_trans (foldl_min_le_init t (min x y)) (min_le_right x y)
    · exact ih _ hy2

lemma le_foldl_max_init (l : List ℚ) (x : ℚ) : x ≤ l.foldl max x := by
  induction l generalizing x with
  | nil => exact le_refl x
  | cons a t ih => exact le_trans (le_max_left x a) (ih (max x a))

lemma le_foldl_max_mem (l : List ℚ) (x y : ℚ) (hy : y ∈ l) : y ≤ l.foldl max x := by
  induction l generalizing x with
  | nil => cases hy
  | cons a t ih =>
    rcases List.mem_cons.mp hy with rfl | hy2
    · exact le_trans (le_max_right x y) (le_foldl_max_init t (max x y))
    · exact ih _ hy2

lemma foldl_max_mem (l : List ℚ) (x : ℚ) : l.foldl max x ∈ x :: l := by
  induction l generalizing x with
  | nil => simp
  | cons a t ih =>
    rw [List.foldl_cons]
    rcases List.mem_cons.mp (ih (max x a)) with h | h
    · rw [h]
      rcases max_choice x a with hx | hx <;> simp [hx]
    · exact List.mem_cons_of_mem _ (List.mem_cons_of_mem _ h)

lemma list_min_le (l : List ℚ) (m y : ℚ) (hm : list_min l = some m) (hy : y ∈ l) :
    m ≤ y := by
  cases l with
  | nil => cases hy
  | cons a t =>
    obtain rfl : t.foldl min a = m := by simpa [list_min] using hm
    rcases List.mem_cons.mp hy with rfl | h
    · exact foldl_min_le_init t y
    · exact foldl_min_le_mem t a y h

lemma list_max_spec (l : List ℚ) (m : ℚ) (hm : list_max l = some m) :
    m ∈ l ∧ ∀ y ∈ l, y ≤ m := by
  cases l with
  | nil => exact absurd hm (by simp [list_max])
  | cons a t =>
    obtain rfl : t.foldl max a = m := by simpa [list_max] using hm
    refine ⟨foldl_max_mem t a, ?_⟩
    intro y hy
    rcases List.mem_cons.mp hy with rfl | h
    · exact le_foldl_max_init t y
    · exact le_foldl_max_mem t a y h

lemma update_range_spec (g : HourlyGrid) (dt : ℚ) (a b : ℤ)
    (hs : g._start = some a) (he : g._end_ = some b) (hab : a ≤ b)
    (hkeys : ∀ h : ℤ, (dictGet g.hours h).isSome ↔ (a ≤ h ∧ h ≤ b)) :
    ∃ a2 b2, (g._update_range dt)._start = some a2 ∧
      (g._update_range dt)._end_ = some b2 ∧ a2 ≤ b2 ∧
      (∀ h : ℤ, ((dictGet (g._update_range dt).hours h).isSome ∨ h = ⌊dt⌋) ↔
        (a2 ≤ h ∧ h ≤ b2)) := by
  by_cases h1 : dt < (a : ℚ)
  · -- dt extends the range downward
    have hfa : ⌊dt⌋ < a := Int.floor_lt.mpr (by exact_mod_cast h1)
    have h2 : ¬ dt > (b : ℚ) :=
      not_lt.mpr (le_of_lt (lt_of_lt_of_le h1 (by exact_mod_cast hab)))
    refine ⟨⌊dt⌋, b, ?_, ?_, by omega, ?_⟩
    · simp [HourlyGrid._update_range, hs, he, trunc_hour, h1, h2,
        HourlyGrid._recalc]
    · simp [HourlyGrid._update_range, hs, he, trunc_hour, h1, h2,
        HourlyGrid._recalc]
    · intro h
      have hhours : (g._update_range dt).hours =
          fill_missing g._default_value g.hours ⌊dt⌋ ((b - ⌊dt⌋).toNat) := by
        simp [HourlyGrid._update_range, hs, he, trunc_hour, h1, h2,
          HourlyGrid._recalc]
      rw [hhours, dictGet_fill_missing, hkeys h]
      omega
  · by_cases h2 : dt > (b : ℚ)
    · -- dt extends the range upward
      have hfb : b ≤ ⌊dt⌋ := Int.le_floor.mpr (le_of_lt (by exact_mod_cast h2))
      refine ⟨a, ⌊dt⌋, ?_, ?_, by omega, ?_⟩
      · simp [HourlyGrid._update_range, hs, he, trunc_hour, h1, h2,
          HourlyGrid._recalc_bottom]
      · simp [HourlyGrid._update_range, hs, he, trunc_hour, h1, h2,
          HourlyGrid._recalc_bottom]
      · intro h
        have hhours : (g._update_range dt).hours =
            fill_missing g._default_value g.hours b ((⌊dt⌋ - b).toNat) := by
          simp [HourlyGrid._update_range, hs, he, trunc_hour, h1, h2,
            HourlyGrid._recalc_bottom]
        rw [hhours, dictGet_fill_missing, hkeys h]
        omega
    · -- dt falls within the current range: no recalculation at all
      have hfa : a ≤ ⌊dt⌋ := Int.le_floor.mpr (by exact_mod_cast not_lt.mp h1)
      have hfb : ⌊dt⌋ ≤ b := by
        have hle : dt ≤ (b : ℚ) := not_lt.mp h2
        exact le_trans (Int.floor_le_floor hle) (le_of_eq (Int.floor_intCast b))
      refine ⟨a, b, ?_, ?_, hab, ?_⟩
      · simp [HourlyGrid._update_range, hs, he, trunc_hour, h1, h2]
      · simp [HourlyGrid._update_range, hs, he, trunc_hour, h1, h2]
      · intro h
        have hhours : (g._update_range dt).hours = g.hours := by
          simp [HourlyGrid._update_range, hs, he, trunc_hour, h1, h2]
        rw [hhours, hkeys h]
        omega

lemma add_hours_eq (g : HourlyGrid) (dt : ℚ) (v : Option ℚ) :
    (g.add dt v).hours = dictSet (g._update_range dt).hours ⌊dt⌋ v ∧
    (g.add dt v)._start = (g._update_range dt)._start ∧
    (g.add dt v)._end_ = (g._update_range dt)._end_ := by
  by_cases hv : v.isSome <;> simp [HourlyGrid.add, hv, trunc_hour]

lemma add_dense (g : HourlyGrid) (dt : ℚ) (v : Option ℚ) (hg : grid_dense g) :
    grid_dense (g.add dt v) := by
  obtain ⟨a, b, hs, he, hab, hkeys⟩ := hg
  obtain ⟨a2, b2, hs2, he2, hab2, hk2⟩ := update_range_spec g dt a b hs he hab hkeys
  obtain ⟨hh, hst, hen⟩ := add_hours_eq g dt v
  refine ⟨a2, b2, by rw [hst, hs2], by rw [hen, he2], hab2, ?_⟩
  intro h
  rw [hh, dictGet_dictSet]
  exact hk2 h

lemma add_init_dense (default : Option ℚ) (dt : ℚ) (v : Option ℚ) :
    grid_dense ((HourlyGrid.init default).add dt v) := by
  obtain ⟨hh, hst, hen⟩ := add_hours_eq (HourlyGrid.init default) dt v
  have hup : ((HourlyGrid.init default)._update_range dt) =
      { hours := [], _start := some ⌊dt⌋, _end_ := some ⌊dt⌋,
        _default_value := default, _is_empty := true } := by
    simp [HourlyGrid._update_range, HourlyGrid.init, trunc_hour,
      HourlyGrid._recalc, fill_missing]
  refine ⟨⌊dt⌋, ⌊dt⌋, by rw [hst, hup], by rw [hen, hup], le_refl _, ?_⟩
  intro h
  rw [hh, hup]
  by_cases hdt : (⌊dt⌋ : ℤ) = h
  · simp [dictSet, dictGet, hdt]
  · simp [dictSet, dictGet, hdt]
    omega

lemma foldl_add_dense (ops : List (ℚ × Option ℚ)) (g : HourlyGrid)
    (hg : grid_dense g) :
    grid_dense (ops.foldl (fun g2 p => g2.add p.1 p.2) g) := by
  induction ops generalizing g with
  | nil => exact hg
  | cons p t ih => exact ih _ (add_dense g p.1 p.2 hg)

lemma get_mean_spec (g : HourlyGrid) (q : Option (ℤ × ℤ))
    (he : g._is_empty = false) (hh : g.hours ≠ [])
    (hs : slice_cells g q ≠ []) :
    g.get_mean q = some ((((slice_cells g q).map (fun c => c.getD 0)).sum) /
      (((slice_cells g q).length : ℚ))) := by
  have hlen : ¬ g.hours.length = 0 := by
    simpa [List.length_eq_zero] using hh
  cases q with
  | none =>
    have hlen2 : ¬ (g.hours.map fun kv => kv.2.getD 0).length = 0 := by
      simpa [List.length_map] using hlen
    simp only [HourlyGrid.get_mean, he, Bool.false_eq_true, if_false,
      hlen, if_false, hlen2, slice_cells, List.map_map]
    simp [Function.comp_def, List.length_map]
  | some se =>
    obtain ⟨s, e⟩ := se
    have hfil : (g.hours.filter fun kv => decide (s ≤ kv.1) && decide (kv.1 ≤ e)) ≠ [] := by
      intro hcon
      apply hs
      simp [slice_cells, hcon]
    have hlen2 : ¬ ((g.hours.filter fun kv =>
        decide (s ≤ kv.1) && decide (kv.1 ≤ e)).map fun kv => kv.2.getD 0).length = 0 := by
      simpa [List.length_map, List.length_eq_zero] using hfil
    simp only [HourlyGrid.get_mean, he, Bool.false_eq_true, if_false,
      hlen, if_false, hlen2, slice_cells, List.map_map]
    simp [Function.comp_def, List.length_map]

lemma map_getD_slice_none (g : HourlyGrid) :
    (slice_cells g none).map (fun c => c.getD 0) =
      g.hours.map (fun kv => kv.2.getD 0) := by
  simp [slice_cells, List.map_map, Function.comp_def]

lemma map_getD_slice_some (g : HourlyGrid) (s e : ℤ) :
    (slice_cells g (some (s, e))).map (fun c => c.getD 0) =
      (g.hours.filter fun kv => decide (s ≤ kv.1) && decide (kv.1 ≤ e)).map
        (fun kv => kv.2.getD 0) := by
  simp [slice_cells, List.map_map, Function.comp_def]

lemma list_min_of_ne_nil (l : List ℚ) (hne : l ≠ []) :
    ∃ mn, list_min l = some mn := by
  obtain ⟨x, t, rfl⟩ := List.exists_cons_of_ne_nil hne
  exact ⟨t.foldl min x, rfl⟩

lemma get_min_le_zero (g : HourlyGrid) (q : Option (ℤ × ℤ))
    (he : g._is_empty = false) (hh : g.hours ≠ [])
    (hnull : none ∈ slice_cells g q) :
    ∃ mn, g.get_min q = some mn ∧ mn ≤ 0 := by
  have hlen : ¬ g.hours.length = 0 := by
    simpa [List.length_eq_zero] using hh
  have hzero : (0 : ℚ) ∈ (slice_cells g q).map (fun c => c.getD 0) :=
    List.mem_map.mpr ⟨none, hnull, rfl⟩
  cases q with
  | none =>
    rw [map_getD_slice_none] at hzero
    have hlen2 : ¬ (g.hours.map fun kv => kv.2.getD 0).length = 0 := by
      simpa [List.length_map] using hlen
    obtain ⟨mn, hmn⟩ := list_min_of_ne_nil _ (List.ne_nil_of_mem hzero)
    refine ⟨mn, ?_, list_min_le _ mn 0 hmn hzero⟩
    simp only [HourlyGrid.get_min, he, Bool.false_eq_true, if_false,
      hlen, if_false, hlen2]
    exact hmn
  | some se =>
    obtain ⟨s, e⟩ := se
    rw [map_getD_slice_some] at hzero
    have hlen2 : ¬ ((g.hours.filter fun kv =>
        decide (s ≤ kv.1) && decide (kv.1 ≤ e)).map fun kv => kv.2.getD 0).length = 0 := by
      intro hcon
      rw [List.length_eq_zero] at hcon
      rw [hcon] at hzero
      cases hzero
    obtain ⟨mn, hmn⟩ := list_min_of_ne_nil _ (List.ne_nil_of_mem hzero)
    refine ⟨mn, ?_, list_min_le _ mn 0 hmn hzero⟩
    simp only [HourlyGrid.get_min, he, Bool.false_eq_true, if_false,
      hlen, if_false, hlen2]
    exact hmn

lemma slice_reduceOption (g : HourlyGrid) (q : Option (ℤ × ℤ)) :
    (slice_cells g q).reduceOption =
      (match q with
       | none => g.hours.filterMap fun kv => kv.2
       | some (s, e) =>
           (g.hours.filter fun kv => decide (s ≤ kv.1) && decide (kv.1 ≤ e)).filterMap
             fun kv => kv.2) := by
  cases q with
  | none =>
    simp [slice_cells, List.reduceOption, List.filterMap_map]
  | some se =>
    obtain ⟨s, e⟩ := se
    simp [slice_cells, List.reduceOption, List.filterMap_map]

lemma get_max_spec (g : HourlyGrid) (q : Option (ℤ × ℤ))
    (he : g._is_empty = false) (hh : g.hours ≠ []) (x : ℚ)
    (hx : g.get_max q = some x) :
    x ∈ (slice_cells g q).reduceOption ∧
      ∀ y ∈ (slice_cells g q).reduceOption, y ≤ x := by
  have hlen : ¬ g.hours.length = 0 := by
    simpa [List.length_eq_zero] using hh
  rw [slice_reduceOption]
  cases q with
  | none =>
    simp only [HourlyGrid.get_max, he, Bool.false_eq_true, if_false,
      hlen, if_false] at hx
    by_cases hv : (g.hours.filterMap fun kv => kv.2).length = 0
    · rw [if_pos hv] at hx; cases hx
    · rw [if_neg hv] at hx
      exact list_max_spec _ x hx
  | some se =>
    obtain ⟨s, e⟩ := se
    simp only [HourlyGrid.get_max, he, Bool.false_eq_true, if_false,
      hlen, if_false] at hx
    by_cases hv : ((g.hours.filter fun kv =>
        decide (s ≤ kv.1) && decide (kv.1 ≤ e)).filterMap fun kv => kv.2).length = 0
    · rw [if_pos hv] at hx; cases hx
    · rw [if_neg hv] at hx
      exact list_max_spec _ x hx

/- ======================== claims about HourlyGrid ======================== -/

/-- C2 (code_bug evidence): on the grid {0: 0, 1: None, 2: 5}, get_total is 5
as claimed but get_mean is 5/3 — the null hour is turned into a 0 and kept in
the denominator — not the 2.5 the claim (and the repository's own test
test_handling_of_none_and_zero) expects. -/
theorem C2_total_and_mean_on_null_example :
    example_grid_230.get_total none = some 5 ∧
    example_grid_230.get_mean none = some (5/3) := by
  have hh : example_grid_230.hours = [(0, some 0), (1, none), (2, some 5)] := rfl
  have he : example_grid_230._is_empty = false := rfl
  constructor
  · norm_num [HourlyGrid.get_total, he, hh, List.filterMap_cons]
  · norm_num [HourlyGrid.get_mean, he, hh]

/-- C7 (code_bug evidence): on the same grid, get_total_by_year reaches
`years[year] += value` with value None and raises TypeError instead of
skipping the null hour. -/
theorem C7_total_by_year_raises_on_null :
    example_grid_230.get_total_by_year =
      Except.error "TypeError: unsupported operand types for +=: int and NoneType" := rfl

/-- C8: after any nonempty sequence of add calls the grid is dense — both
bounds are set and the hour dict holds a key exactly at every hour of
[start, end], none outside. -/
theorem C8_hours_dense_invariant (default : Option ℚ) (ops : List (ℚ × Option ℚ))
    (hne : ops ≠ []) : grid_dense (add_all default ops) := by
  match ops, hne with
  | p :: t, _ =>
    show grid_dense ((p :: t).foldl _ (HourlyGrid.init default))
    rw [List.foldl_cons]
    exact foldl_add_dense t _ (add_init_dense default p.1 p.2)

/-- Witness for C8_hours_dense_invariant on a one-element insertion list. -/
theorem C8_hours_dense_invariant_applied :
    grid_dense (add_all none [((3/2 : ℚ), some 5)]) :=
  C8_hours_dense_invariant none [((3/2 : ℚ), some 5)] (List.cons_ne_nil _ _)

/-- C10: on a grid with at least one non-null value, get_mean substitutes 0
for the null hours of the slice (dividing by the full slice length), get_min
does the same substitution — so a slice containing a null hour has minimum at
most 0 — while get_max drops the null hours and maximizes over the non-null
values only. -/
theorem C10_null_substitution (g : HourlyGrid) (q : Option (ℤ × ℤ))
    (he : g._is_empty = false) (hh : g.hours ≠ []) :
    (slice_cells g q ≠ [] →
      g.get_mean q = some ((((slice_cells g q).map (fun c => c.getD 0)).sum) /
        (((slice_cells g q).length : ℚ)))) ∧
    (none ∈ slice_cells g q → ∃ mn, g.get_min q = some mn ∧ mn ≤ 0) ∧
    (∀ x, g.get_max q = some x →
      x ∈ (slice_cells g q).reduceOption ∧
        ∀ y ∈ (slice_cells g q).reduceOption, y ≤ x) :=
  ⟨fun hs => get_mean_spec g q he hh hs,
   fun hn => get_min_le_zero g q he hh hn,
   fun x hx => get_max_spec g q he hh x hx⟩

/-- Witness for C10_null_substitution on the {0: 0, 1: None, 2: 5} grid. -/
theorem C10_null_substitution_applied :
    (slice_cells example_grid_230 none ≠ [] →
      example_grid_230.get_mean none =
        some ((((slice_cells example_grid_230 none).map (fun c => c.getD 0)).sum) /
          (((slice_cells example_grid_230 none).length : ℚ)))) ∧
    (none ∈ slice_cells example_grid_230 none →
      ∃ mn, example_grid_230.get_min none = some mn ∧ mn ≤ 0) ∧
    (∀ x, example_grid_230.get_max none = some x →
      x ∈ (slice_cells example_grid_230 none).reduceOption ∧
        ∀ y ∈ (slice_cells example_grid_230 none).reduceOption, y ≤ x) :=
  C10_null_substitution example_grid_230 none rfl
    (by rw [show example_grid_230.hours = [(0, some 0), (1, none), (2, some 5)] from rfl]
        exact List.cons_ne_nil _ _)

end WxLogs
